import Mathlib

/-
Shallow embedding of the command codec of `spi-flash-rs`
(src/commands/mod.rs and src/commands/spansion.rs).

Machine integers (`u8`, `u32`) are modelled as `Nat`; a `u32`-typed value
is a natural number below `2 ^ 32` and theorems about "every u32 value"
carry that bound as a hypothesis.  Code that can hit a `todo!()` panic is
modelled with `Option`, `none` standing for the panic (no value is ever
produced on that path).
-/

/-- `Address24Bits(pub u32)` from src/commands/mod.rs.  `val` is the stored
32-bit value; any bits above the low 24 are ignored by the encoding. -/
structure Address24Bits where
  val : Nat
  deriving DecidableEq

/-- `Address24Bits::to_le_bytes`: `self.0.to_le_bytes()` yields the four
little-endian bytes of the `u32`; the fourth (most significant) byte is
dropped, keeping `[lsb, csb, msb]`. -/
def Address24Bits.to_le_bytes (a : Address24Bits) : List Nat :=
  [a.val % 256, a.val / 2 ^ 8 % 256, a.val / 2 ^ 16 % 256]

/-- `Address32Bits(pub u32)` from src/commands/mod.rs. -/
structure Address32Bits where
  val : Nat
  deriving DecidableEq

/-- The `CommandOpCode` enum of src/commands/spansion.rs (38 variants). -/
inductive CommandOpCode where
  | WriteEnable
  | WriteDisable
  | ReadData
  | PageProgram
  | ReadStatusRegister1
  | WriteStatusRegister1
  | ReadJEDECID
  | FastRead
  | Powerdown
  | ReleasePowerdown
  | ReadDeviceID
  | ChipErase
  | ReadUniqueID
  | ReadSFDPRegister
  | ReadStatusRegister2
  | ReadStatusRegister3
  | ReadFlagStatusRegister
  | WriteStatusRegister2
  | WriteStatusRegister3
  | WriteEnableVolatile
  | EnableReset
  | Reset
  | SoftwareReset
  | ProgramSuspend
  | ProgramResume
  | SectorErase
  | BlockErase1
  | BlockErase2
  | EraseSecurityRegisters
  | ProgramSecurityRegisters
  | ReadSecurityRegisters
  | IndividualBlockLock
  | IndividualBlockUnlock
  | ReadBlockLock
  | GlobalBlockLock
  | GlobalBlockUnlock
  | ReadDualOut
  | ReadDualIO
  | ReadQuadOut
  | ReadQuadIO
  deriving DecidableEq

/-- The `repr(u8)` discriminant of each `CommandOpCode` variant, i.e. the
one-byte wire value produced by `u8::from` via `num_enum::IntoPrimitive`. -/
def CommandOpCode.toByte : CommandOpCode → Nat
  | CommandOpCode.WriteEnable => 0x06
  | CommandOpCode.WriteDisable => 0x04
  | CommandOpCode.ReadData => 0x03
  | CommandOpCode.PageProgram => 0x02
  | CommandOpCode.ReadStatusRegister1 => 0x05
  | CommandOpCode.WriteStatusRegister1 => 0x01
  | CommandOpCode.ReadJEDECID => 0x9F
  | CommandOpCode.FastRead => 0x0B
  | CommandOpCode.Powerdown => 0xB9
  | CommandOpCode.ReleasePowerdown => 0xAB
  | CommandOpCode.ReadDeviceID => 0x90
  | CommandOpCode.ChipErase => 0xC7
  | CommandOpCode.ReadUniqueID => 0x4B
  | CommandOpCode.ReadSFDPRegister => 0x5A
  | CommandOpCode.ReadStatusRegister2 => 0x35
  | CommandOpCode.ReadStatusRegister3 => 0x15
  | CommandOpCode.ReadFlagStatusRegister => 0x70
  | CommandOpCode.WriteStatusRegister2 => 0x31
  | CommandOpCode.WriteStatusRegister3 => 0x11
  | CommandOpCode.WriteEnableVolatile => 0x50
  | CommandOpCode.EnableReset => 0x66
  | CommandOpCode.Reset => 0x99
  | CommandOpCode.SoftwareReset => 0xF0
  | CommandOpCode.ProgramSuspend => 0x75
  | CommandOpCode.ProgramResume => 0x7A
  | CommandOpCode.SectorErase => 0x20
  | CommandOpCode.BlockErase1 => 0x52
  | CommandOpCode.BlockErase2 => 0xD8
  | CommandOpCode.EraseSecurityRegisters => 0x44
  | CommandOpCode.ProgramSecurityRegisters => 0x42
  | CommandOpCode.ReadSecurityRegisters => 0x48
  | CommandOpCode.IndividualBlockLock => 0x36
  | CommandOpCode.IndividualBlockUnlock => 0x39
  | CommandOpCode.ReadBlockLock => 0x3D
  | CommandOpCode.GlobalBlockLock => 0x7E
  | CommandOpCode.GlobalBlockUnlock => 0x98
  | CommandOpCode.ReadDualOut => 0x3B
  | CommandOpCode.ReadDualIO => 0xBB
  | CommandOpCode.ReadQuadOut => 0x6B
  | CommandOpCode.ReadQuadIO => 0xEB

/-- The `Command` enum of src/commands/spansion.rs (26 variants; the
address-carrying ones hold one `Address24Bits`). -/
inductive Command where
  | ReadDeviceID
  | ReadJEDECID
  | ReleasePowerdown
  | ReadStatusRegister1
  | WriteEnable
  | WriteDisable
  | ReadData (a : Address24Bits)
  | PageProgram (a : Address24Bits)
  | WriteStatusRegister1
  | FastRead (a : Address24Bits)
  | Powerdown
  | ChipErase
  | ReadUniqueID
  | ReadSFDPRegister (a : Address24Bits)
  | ReadStatusRegister2
  | ReadStatusRegister3
  | ReadFlagStatusRegister
  | WriteStatusRegister2
  | WriteStatusRegister3
  | WriteEnableVolatile
  | EnableReset
  | Reset
  | ReadDualOut (a : Address24Bits)
  | ReadQuadOut (a : Address24Bits)
  | ReadDualIO (a : Address24Bits)
  | ReadQuadIO (a : Address24Bits)
  deriving DecidableEq

/-- The `match` stage of `Command::to_array` (spansion.rs lines 115-138):
`Left opcode` for no-payload commands, `Right (opcode, addr)` for
address-carrying ones, `none` for the `_ => todo!()` arm (a panic). -/
def Command.to_array_core : Command → Option (CommandOpCode ⊕ CommandOpCode × Address24Bits)
  | Command.ReadStatusRegister1 => some (Sum.inl CommandOpCode.ReadStatusRegister1)
  | Command.WriteStatusRegister1 => some (Sum.inl CommandOpCode.WriteStatusRegister1)
  | Command.ReadUniqueID => some (Sum.inl CommandOpCode.ReadUniqueID)
  | Command.ReadJEDECID => some (Sum.inl CommandOpCode.ReadJEDECID)
  | Command.ReadSFDPRegister a => some (Sum.inr (CommandOpCode.ReadSFDPRegister, a))
  | Command.ReadStatusRegister2 => some (Sum.inl CommandOpCode.ReadStatusRegister2)
  | Command.ReadStatusRegister3 => some (Sum.inl CommandOpCode.ReadStatusRegister3)
  | Command.WriteStatusRegister2 => some (Sum.inl CommandOpCode.WriteStatusRegister2)
  | Command.WriteStatusRegister3 => some (Sum.inl CommandOpCode.WriteStatusRegister3)
  | Command.WriteEnableVolatile => some (Sum.inl CommandOpCode.WriteEnableVolatile)
  | Command.WriteEnable => some (Sum.inl CommandOpCode.WriteEnable)
  | Command.WriteDisable => some (Sum.inl CommandOpCode.WriteDisable)
  | Command.FastRead a => some (Sum.inr (CommandOpCode.FastRead, a))
  | Command.PageProgram a => some (Sum.inr (CommandOpCode.PageProgram, a))
  | Command.ReadData a => some (Sum.inr (CommandOpCode.ReadData, a))
  | Command.ReadDualOut a => some (Sum.inr (CommandOpCode.ReadDualOut, a))
  | Command.ReadQuadOut a => some (Sum.inr (CommandOpCode.ReadQuadOut, a))
  | Command.ReadDualIO a => some (Sum.inr (CommandOpCode.ReadDualIO, a))
  | Command.ReadQuadIO a => some (Sum.inr (CommandOpCode.ReadQuadIO, a))
  | _ => none

/-- `Command::to_array` (spansion.rs lines 113-145): the `Either` from the
match is turned into the frame bytes by `map_left` / `map_right` and
`collect`: a lone opcode byte on the left, the opcode byte chained with the
3 little-endian address bytes on the right.  `none` models the `todo!()`
panic of the unhandled variants. -/
def Command.to_array (c : Command) : Option (List Nat) :=
  c.to_array_core.map fun e =>
    match e with
    | Sum.inl op => [op.toByte]
    | Sum.inr (op, addr) => op.toByte :: addr.to_le_bytes

/-- `Command::len` (spansion.rs lines 147-164).  `none` models the
`_ => todo!()` panic of the unhandled variants. -/
def Command.len : Command → Option Nat
  | Command.ReadUniqueID => some 1
  | Command.ReadJEDECID => some 1
  | Command.ReadStatusRegister1 => some 1
  | Command.ReadStatusRegister2 => some 1
  | Command.ReadStatusRegister3 => some 1
  | Command.WriteEnable => some 1
  | Command.WriteDisable => some 1
  | Command.PageProgram _ => some 4
  | Command.ReadData _ => some 4
  | Command.ReadDualOut _ => some 4
  | Command.ReadQuadOut _ => some 4
  | Command.ReadDualIO _ => some 4
  | Command.ReadQuadIO _ => some 4
  | _ => none

/-- Shape classification of a `Command`, read off the enum declaration
(spansion.rs lines 77-111): `some a` for the 8 address-carrying variants,
`none` for the 18 no-payload variants. -/
def Command.addr_payload : Command → Option Address24Bits
  | Command.ReadData a => some a
  | Command.PageProgram a => some a
  | Command.FastRead a => some a
  | Command.ReadSFDPRegister a => some a
  | Command.ReadDualOut a => some a
  | Command.ReadQuadOut a => some a
  | Command.ReadDualIO a => some a
  | Command.ReadQuadIO a => some a
  | _ => none

/-- The deserialization error taxonomy of spec section 7 (the crate error
type lives outside the two command-codec source files). -/
inductive ParseError where
  | UnknownOpcode
  | MissingAddress
  | UnexpectedAddress
  | AddressWidthMismatch
  deriving DecidableEq

/-- Modelled from the spec: the static shape table of spec section 4.4 —
which supported opcode byte maps to which `Command` variant and whether
that variant requires a 24-bit address. -/
inductive CmdShape where
  | noAddr (c : Command)
  | addr24 (mk : Address24Bits → Command)

/-- Modelled from the spec: the reverse of the Opcode Table (spec sections
4.1 and 4.4) over the supported subset, i.e. the opcode bytes that have a
`Command` variant; every other byte is unknown. -/
def Command.reverse_lookup : Nat → Option CmdShape
  | 0x90 => some (CmdShape.noAddr Command.ReadDeviceID)
  | 0x9F => some (CmdShape.noAddr Command.ReadJEDECID)
  | 0xAB => some (CmdShape.noAddr Command.ReleasePowerdown)
  | 0x05 => some (CmdShape.noAddr Command.ReadStatusRegister1)
  | 0x06 => some (CmdShape.noAddr Command.WriteEnable)
  | 0x04 => some (CmdShape.noAddr Command.WriteDisable)
  | 0x03 => some (CmdShape.addr24 Command.ReadData)
  | 0x02 => some (CmdShape.addr24 Command.PageProgram)
  | 0x01 => some (CmdShape.noAddr Command.WriteStatusRegister1)
  | 0x0B => some (CmdShape.addr24 Command.FastRead)
  | 0xB9 => some (CmdShape.noAddr Command.Powerdown)
  | 0xC7 => some (CmdShape.noAddr Command.ChipErase)
  | 0x4B => some (CmdShape.noAddr Command.ReadUniqueID)
  | 0x5A => some (CmdShape.addr24 Command.ReadSFDPRegister)
  | 0x35 => some (CmdShape.noAddr Command.ReadStatusRegister2)
  | 0x15 => some (CmdShape.noAddr Command.ReadStatusRegister3)
  | 0x70 => some (CmdShape.noAddr Command.ReadFlagStatusRegister)
  | 0x31 => some (CmdShape.noAddr Command.WriteStatusRegister2)
  | 0x11 => some (CmdShape.noAddr Command.WriteStatusRegister3)
  | 0x50 => some (CmdShape.noAddr Command.WriteEnableVolatile)
  | 0x66 => some (CmdShape.noAddr Command.EnableReset)
  | 0x99 => some (CmdShape.noAddr Command.Reset)
  | 0x3B => some (CmdShape.addr24 Command.ReadDualOut)
  | 0x6B => some (CmdShape.addr24 Command.ReadQuadOut)
  | 0xBB => some (CmdShape.addr24 Command.ReadDualIO)
  | 0xEB => some (CmdShape.addr24 Command.ReadQuadIO)
  | _ => none

/-- Modelled from the spec: `Command::try_from_byte` — the body in
src/commands/spansion.rs (line 170) is `todo!()`, so the deserializer is
modelled from the algorithm of spec section 4.4: map the opcode byte
through the reverse table (`UnknownOpcode` on no match), check the
address argument against the expected shape (`MissingAddress` /
`UnexpectedAddress` / `AddressWidthMismatch`), and build the variant. -/
def Command.try_from_byte (op_code : Nat)
    (addr : Option (Address24Bits ⊕ Address32Bits)) : Except ParseError Command :=
  match Command.reverse_lookup op_code, addr with
  | none, _ => Except.error ParseError.UnknownOpcode
  | some (CmdShape.noAddr c), none => Except.ok c
  | some (CmdShape.noAddr _), some _ => Except.error ParseError.UnexpectedAddress
  | some (CmdShape.addr24 _), none => Except.error ParseError.MissingAddress
  | some (CmdShape.addr24 mk), some (Sum.inl a) => Except.ok (mk a)
  | some (CmdShape.addr24 _), some (Sum.inr _) => Except.error ParseError.AddressWidthMismatch

/-- Forward-then-backward byte lookup: a reverse table used to prove the
opcode table injective.  Restricted to nothing — it covers all 38 wire
values of `CommandOpCode`. -/
def CommandOpCode.fromByte : Nat → Option CommandOpCode
  | 0x06 => some CommandOpCode.WriteEnable
  | 0x04 => some CommandOpCode.WriteDisable
  | 0x03 => some CommandOpCode.ReadData
  | 0x02 => some CommandOpCode.PageProgram
  | 0x05 => some CommandOpCode.ReadStatusRegister1
  | 0x01 => some CommandOpCode.WriteStatusRegister1
  | 0x9F => some CommandOpCode.ReadJEDECID
  | 0x0B => some CommandOpCode.FastRead
  | 0xB9 => some CommandOpCode.Powerdown
  | 0xAB => some CommandOpCode.ReleasePowerdown
  | 0x90 => some CommandOpCode.ReadDeviceID
  | 0xC7 => some CommandOpCode.ChipErase
  | 0x4B => some CommandOpCode.ReadUniqueID
  | 0x5A => some CommandOpCode.ReadSFDPRegister
  | 0x35 => some CommandOpCode.ReadStatusRegister2
  | 0x15 => some CommandOpCode.ReadStatusRegister3
  | 0x70 => some CommandOpCode.ReadFlagStatusRegister
  | 0x31 => some CommandOpCode.WriteStatusRegister2
  | 0x11 => some CommandOpCode.WriteStatusRegister3
  | 0x50 => some CommandOpCode.WriteEnableVolatile
  | 0x66 => some CommandOpCode.EnableReset
  | 0x99 => some CommandOpCode.Reset
  | 0xF0 => some CommandOpCode.SoftwareReset
  | 0x75 => some CommandOpCode.ProgramSuspend
  | 0x7A => some CommandOpCode.ProgramResume
  | 0x20 => some CommandOpCode.SectorErase
  | 0x52 => some CommandOpCode.BlockErase1
  | 0xD8 => some CommandOpCode.BlockErase2
  | 0x44 => some CommandOpCode.EraseSecurityRegisters
  | 0x42 => some CommandOpCode.ProgramSecurityRegisters
  | 0x48 => some CommandOpCode.ReadSecurityRegisters
  | 0x36 => some CommandOpCode.IndividualBlockLock
  | 0x39 => some CommandOpCode.IndividualBlockUnlock
  | 0x3D => some CommandOpCode.ReadBlockLock
  | 0x7E => some CommandOpCode.GlobalBlockLock
  | 0x98 => some CommandOpCode.GlobalBlockUnlock
  | 0x3B => some CommandOpCode.ReadDualOut
  | 0xBB => some CommandOpCode.ReadDualIO
  | 0x6B => some CommandOpCode.ReadQuadOut
  | 0xEB => some CommandOpCode.ReadQuadIO
  | _ => none

theorem CommandOpCode.fromByte_toByte (c : CommandOpCode) :
    CommandOpCode.fromByte (CommandOpCode.toByte c) = some c := by
  cases c <;> rfl

/-- C9: concrete serializer results — `ReadJEDECID` serializes to the single
byte `0x9F`, `ReadData(0x000100)` to `[0x03, 0x00, 0x01, 0x00]`, and
`PageProgram(0xABCDEF)` to `[0x02, 0xEF, 0xCD, 0xAB]`. -/
theorem to_array_concrete_frames :
    Command.to_array Command.ReadJEDECID = some [0x9F] ∧
    Command.to_array (Command.ReadData ⟨0x000100⟩) = some [0x03, 0x00, 0x01, 0x00] ∧
    Command.to_array (Command.PageProgram ⟨0xABCDEF⟩) = some [0x02, 0xEF, 0xCD, 0xAB] :=
  ⟨rfl, rfl, rfl⟩

/-- C10: the derived equality of `Address24Bits` compares the full stored
32-bit value, so `Address24Bits 0` and `Address24Bits 0x01000000` are
distinct yet encode to the same three bytes: the 3-byte encoding is not
injective with respect to `Address24Bits` equality. -/
theorem address24_eq_full_width_encoding_not_injective :
    Address24Bits.mk 0 ≠ Address24Bits.mk 0x01000000 ∧
    Address24Bits.to_le_bytes ⟨0⟩ = Address24Bits.to_le_bytes ⟨0x01000000⟩ := by
  constructor
  · intro h
    exact absurd (congrArg Address24Bits.val h) (by decide)
  · rfl

/-- C4: concrete deserializer behavior — opcode `0x9F` with no address gives
`Ok(ReadJEDECID)`; opcode `0x03` (address-carrying `ReadData`) with no
address gives `Err(MissingAddress)`; opcode `0xFF` (no corresponding
opcode) gives `Err(UnknownOpcode)`. -/
theorem try_from_byte_concrete :
    Command.try_from_byte 0x9F none = Except.ok Command.ReadJEDECID ∧
    Command.try_from_byte 0x03 none = Except.error ParseError.MissingAddress ∧
    Command.try_from_byte 0xFF none = Except.error ParseError.UnknownOpcode :=
  ⟨rfl, rfl, rfl⟩

/-- C1: at `FastRead`, `Command::len` hits its `_ => todo!()` arm (a panic,
modelled `none`) while `Command::to_array` successfully produces a 4-byte
frame — the length function and the serializer disagree on supportedness,
contradicting the spec's requirement that they agree. -/
theorem len_to_array_disagree_at_fast_read :
    Command.len (Command.FastRead ⟨0⟩) = none ∧
    Command.to_array (Command.FastRead ⟨0⟩) = some [0x0B, 0x00, 0x00, 0x00] :=
  ⟨rfl, rfl⟩

/-- C5: for the `Command` variants with no forward opcode mapping in
`Command::to_array` (its `_ => todo!()` arm), serialization panics —
modelled `none`: no frame, but also no "unsupported command" error value is
returned (the return type `ArrayVec<u8, 4>` has no error channel at all). -/
theorem to_array_panics_on_unmapped :
    Command.to_array Command.ReadDeviceID = none ∧
    Command.to_array Command.ReleasePowerdown = none ∧
    Command.to_array Command.Powerdown = none ∧
    Command.to_array Command.ChipErase = none ∧
    Command.to_array Command.ReadFlagStatusRegister = none ∧
    Command.to_array Command.EnableReset = none ∧
    Command.to_array Command.Reset = none :=
  ⟨rfl, rfl, rfl, rfl, rfl, rfl, rfl⟩

/-- C8: the opcode table is injective — distinct `CommandOpCode` variants
have distinct one-byte wire values. -/
theorem opcode_table_injective (a b : CommandOpCode) (hne : a ≠ b) :
    CommandOpCode.toByte a ≠ CommandOpCode.toByte b := by
  intro hbyte
  apply hne
  have ha := CommandOpCode.fromByte_toByte a
  rw [hbyte, CommandOpCode.fromByte_toByte b] at ha
  exact (Option.some.inj ha).symm

/-- C8 witness: `WriteEnable` and `WriteDisable` are distinct variants with
distinct wire bytes. -/
theorem opcode_table_injective_witness :
    CommandOpCode.toByte CommandOpCode.WriteEnable ≠
      CommandOpCode.toByte CommandOpCode.WriteDisable :=
  opcode_table_injective CommandOpCode.WriteEnable CommandOpCode.WriteDisable (by decide)

theorem Command.core_inl_addr_payload (c : Command) (op : CommandOpCode)
    (h : c.to_array_core = some (Sum.inl op)) : c.addr_payload = none := by
  cases c <;> simp_all [Command.to_array_core, Command.addr_payload]

theorem Command.core_inr_addr_payload (c : Command) (op : CommandOpCode)
    (a : Address24Bits) (h : c.to_array_core = some (Sum.inr (op, a))) :
    c.addr_payload = some a := by
  cases c <;> simp_all [Command.to_array_core, Command.addr_payload]

/-- C3: every frame the serializer produces is either the lone opcode byte
(for a no-payload variant, length 1) or the opcode byte followed by the
3-byte little-endian address (for an address-carrying variant, length 4);
no other frame length ever occurs. -/
theorem to_array_frame_shape (c : Command) (bs : List Nat)
    (h : Command.to_array c = some bs) :
    (Command.addr_payload c = none →
      ∃ op, c.to_array_core = some (Sum.inl op) ∧ bs = [CommandOpCode.toByte op]) ∧
    (∀ a, Command.addr_payload c = some a →
      ∃ op, c.to_array_core = some (Sum.inr (op, a)) ∧
        bs = CommandOpCode.toByte op :: a.to_le_bytes) ∧
    (bs.length = 1 ∨ bs.length = 4) := by
  unfold Command.to_array at h
  cases hc : c.to_array_core with
  | none => rw [hc] at h; exact absurd h (by simp)
  | some e =>
    rw [hc] at h
    cases e with
    | inl op =>
      simp only [Option.map_some'] at h
      obtain rfl := Option.some.inj h
      refine ⟨fun _ => ⟨op, rfl, rfl⟩, fun a ha => ?_, Or.inl rfl⟩
      rw [Command.core_inl_addr_payload c op hc] at ha
      exact absurd ha (by simp)
    | inr pa =>
      obtain ⟨op, a⟩ := pa
      simp only [Option.map_some'] at h
      obtain rfl := Option.some.inj h
      refine ⟨fun hn => ?_, fun a' ha' => ?_, Or.inr rfl⟩
      · rw [Command.core_inr_addr_payload c op a hc] at hn
        exact absurd hn (by simp)
      · rw [Command.core_inr_addr_payload c op a hc] at ha'
        obtain rfl := Option.some.inj ha'
        exact ⟨op, rfl, rfl⟩

/-- C3 witness: the shape property instantiated at `ReadJEDECID`, whose
frame is the single byte `0x9F`. -/
theorem to_array_frame_shape_witness :
    (Command.addr_payload Command.ReadJEDECID = none →
      ∃ op, Command.to_array_core Command.ReadJEDECID = some (Sum.inl op) ∧
        ([0x9F] : List Nat) = [CommandOpCode.toByte op]) ∧
    (∀ a, Command.addr_payload Command.ReadJEDECID = some a →
      ∃ op, Command.to_array_core Command.ReadJEDECID = some (Sum.inr (op, a)) ∧
        ([0x9F] : List Nat) = CommandOpCode.toByte op :: a.to_le_bytes) ∧
    (([0x9F] : List Nat).length = 1 ∨ ([0x9F] : List Nat).length = 4) :=
  to_array_frame_shape Command.ReadJEDECID [0x9F] rfl

/-- C2: round trip through the wire format — whenever the serializer
produces a frame for `c`, feeding the frame's opcode byte back to the
(spec-modelled) deserializer together with `c`'s address payload (as a
24-bit address, or `None` for a no-payload variant) returns `Ok c`. -/
theorem serialize_try_from_byte_round_trip (c : Command) (b : Nat) (rest : List Nat)
    (h : Command.to_array c = some (b :: rest)) :
    Command.try_from_byte b ((Command.addr_payload c).map Sum.inl) = Except.ok c := by
  cases c <;>
    first
      | exact Option.noConfusion h
      | (have h2 := Option.some.inj h
         injection h2 with hb hrest
         subst hb
         rfl)

/-- C2 witness: the round trip instantiated at `PageProgram(0xABCDEF)`,
whose frame starts with opcode byte `0x02`. -/
theorem serialize_try_from_byte_round_trip_witness :
    Command.try_from_byte 0x02
        ((Command.addr_payload (Command.PageProgram ⟨0xABCDEF⟩)).map Sum.inl) =
      Except.ok (Command.PageProgram ⟨0xABCDEF⟩) :=
  serialize_try_from_byte_round_trip (Command.PageProgram ⟨0xABCDEF⟩) 0x02
    [0xEF, 0xCD, 0xAB] rfl

theorem Address24Bits.to_le_bytes_eq_of_mod_eq {v w : Nat}
    (h : v % 2 ^ 24 = w % 2 ^ 24) :
    Address24Bits.to_le_bytes ⟨v⟩ = Address24Bits.to_le_bytes ⟨w⟩ := by
  simp only [Address24Bits.to_le_bytes, List.cons.injEq, and_true]
  omega

/-- C6: the 24-bit address encoding depends only on the low 24 bits of the
stored `u32`: oring the high byte in does not change the bytes, and any
two values agreeing on `v &&& 0xFFFFFF` encode identically. -/
theorem to_le_bytes_low24 :
    (∀ v : Nat, v < 2 ^ 32 →
      Address24Bits.to_le_bytes ⟨v⟩ =
        Address24Bits.to_le_bytes ⟨v ||| 0xFF000000⟩) ∧
    (∀ v w : Nat, v < 2 ^ 32 → w < 2 ^ 32 → v &&& 0xFFFFFF = w &&& 0xFFFFFF →
      Address24Bits.to_le_bytes ⟨v⟩ = Address24Bits.to_le_bytes ⟨w⟩) := by
  have hmask : ∀ x : Nat, x &&& 0xFFFFFF = x % 2 ^ 24 := by
    intro x
    have h := Nat.and_pow_two_sub_one_eq_mod x 24
    norm_num at h ⊢
    exact h
  constructor
  · intro v _
    apply Address24Bits.to_le_bytes_eq_of_mod_eq
    rw [← hmask v, ← hmask (v ||| 0xFF000000)]
    rw [Nat.and_comm v, Nat.and_comm _ 0xFFFFFF, Nat.and_or_distrib_left]
    have hz : 0xFFFFFF &&& 0xFF000000 = 0 := by decide
    rw [hz, Nat.or_zero]
  · intro v w _ _ hvw
    apply Address24Bits.to_le_bytes_eq_of_mod_eq
    rw [← hmask v, ← hmask w]
    exact hvw

/-- C6 witness: the low-24-bit dependence instantiated at `v = 5` and at the
pair `5` / `0x01000005`, which agree on their low 24 bits. -/
theorem to_le_bytes_low24_witness :
    Address24Bits.to_le_bytes ⟨5⟩ = Address24Bits.to_le_bytes ⟨5 ||| 0xFF000000⟩ ∧
    Address24Bits.to_le_bytes ⟨5⟩ = Address24Bits.to_le_bytes ⟨0x01000005⟩ :=
  ⟨to_le_bytes_low24.1 5 (by norm_num),
   to_le_bytes_low24.2 5 0x01000005 (by norm_num) (by norm_num) (by decide)⟩

/-- C7: the 24-bit address encoding is little-endian with the
least-significant byte at index 0 — byte `i` of the encoding is
`(v >>> 8 * i) &&& 0xFF` — and concretely `0x010203` encodes to
`[0x03, 0x02, 0x01]`. -/
theorem to_le_bytes_little_endian :
    (∀ v : Nat, v < 2 ^ 32 →
      Address24Bits.to_le_bytes ⟨v⟩ =
        [v &&& 0xFF, (v >>> 8) &&& 0xFF, (v >>> 16) &&& 0xFF]) ∧
    Address24Bits.to_le_bytes ⟨0x010203⟩ = [0x03, 0x02, 0x01] := by
  have hmask : ∀ x : Nat, x &&& 0xFF = x % 256 := by
    intro x
    have h := Nat.and_pow_two_sub_one_eq_mod x 8
    norm_num at h ⊢
    exact h
  constructor
  · intro v _
    simp [Address24Bits.to_le_bytes, hmask, Nat.shiftRight_eq_div_pow]
  · rfl

/-- C7 witness: the little-endian byte formula instantiated at `0x010203`. -/
theorem to_le_bytes_little_endian_witness :
    Address24Bits.to_le_bytes ⟨0x010203⟩ =
      [0x010203 &&& 0xFF, (0x010203 >>> 8) &&& 0xFF, (0x010203 >>> 16) &&& 0xFF] :=
  to_le_bytes_little_endian.1 0x010203 (by norm_num)
